import Mathlib

/-
Verification of the bridged HDFS backend `pydoop/hdfs/core/bridged/hadoop.py`.

Shallow embedding conventions:
* Python byte strings are modeled as `List Int` of character codes
  (the empty string is `[]`).
* Java objects reached through the bridge are modeled by small Lean
  structures; data returned by backend calls is passed in as explicit
  arguments, so theorems quantify over backend responses.
* Python exceptions are modeled with `Except PyErr`.
* Backend side effects that matter to the properties at hand (which
  object a write was issued on, which stream-opening call was made) are
  returned as explicit call lists.
-/

namespace Pydoop

/-- Python `os.O_RDONLY` on Linux. -/
def O_RDONLY : Nat := 0

/-- Python `os.O_WRONLY` on Linux. -/
def O_WRONLY : Nat := 1

/-- Python `os.O_RDWR` on Linux. -/
def O_RDWR : Nat := 2

/-- Python `os.O_CREAT` on Linux. -/
def O_CREAT : Nat := 64

/-- Python `os.O_EXCL` on Linux. -/
def O_EXCL : Nat := 128

/-- Python `os.O_APPEND` on Linux. -/
def O_APPEND : Nat := 1024

/-- Local `O_ACCMODE = os.O_RDONLY | os.O_RDWR | os.O_WRONLY` computed in
`open_file`. -/
def O_ACCMODE : Nat := O_RDONLY ||| O_RDWR ||| O_WRONLY

/-- Modelled from the spec: the default read-chunk size
(`pydoop.hdfs.common.BUFSIZE`; the `common` module is not among the
sources, the spec only describes it as the default read-chunk size used
when `length == -1`). -/
def BUFSIZE : Int := 16384

/-- Python exceptions raised by this layer: `IOError`, `ValueError` and
the bare `Exception`, each carrying its message. -/
inductive PyErr where
  | ioError (msg : String)
  | valueError (msg : String)
  | exception (msg : String)
  deriving Repr, DecidableEq

/-- State of a backend (Java) stream object as visible through the calls
this layer makes: the position reported by `getPos()` and whether
`close()` has been called on it. -/
structure JStream where
  pos : Int
  closed : Bool
  deriving Repr, DecidableEq

/-- Backend `stream.close()`: marks the stream closed.  Closing an
already closed stream has no further effect (the `java.io.Closeable`
contract). -/
def JStream.jclose (s : JStream) : JStream :=
  { s with closed := true }

/-- The `java.io.BufferedOutputStream` wrapper built in
`CoreHdfsFile.__init__` for OUTPUT handles: it wraps the raw stream and
holds not-yet-flushed bytes. -/
structure JBufferedStream where
  raw : Option JStream
  buffer : List Int
  deriving Repr, DecidableEq

/-- Which object a backend write call was issued on: the raw stream
(`self._stream.write(...)`) or the buffering wrapper
(`self._buffered_stream.write(...)`). -/
inductive WriteTarget where
  | raw
  | buffered
  deriving Repr, DecidableEq

/-- The mutable chunk handed to the chunk-based read/write variants:
`size` models `len(chunk)` (the fixed allocation size of the buffer),
`value` models `chunk.value` (its current content). -/
structure Chunk where
  size : Nat
  value : List Int
  deriving Repr, DecidableEq

/-- Response of one backend stream read call (`stream.read(buf)` or the
positional `stream.read(pos, buf, 0, length)`): `count` is the returned
read count (-1 at end of stream) and `bytes` are the bytes the backend
placed at the start of the buffer. -/
structure BackendRead where
  count : Int
  bytes : List Int
  deriving Repr, DecidableEq

/-- `chr((x + 256) % 256)`: the byte normalization applied to each
buffer element on every read path.  Python `%` with a positive modulus,
like `Int.emod`, never returns a negative value. -/
def toUByte (x : Int) : Int :=
  (x + 256) % 256

/-- Python slice `l[:n]` for an `Int` bound `n`: a negative `n` counts
from the end of the list (`l[:n]` is `l[:max(0, len(l) + n)]`). -/
def pySliceTo (l : List Int) (n : Int) : List Int :=
  if 0 ≤ n then l.take n.toNat else l.take (l.length - (-n).toNat)

/-- Contents of the `ByteBuffer.allocate(cap).array()` buffer after the
backend read call wrote `r.bytes` at its start (allocation zero-fills
the array). -/
def bufferAfterRead (cap : Nat) (r : BackendRead) : List Int :=
  r.bytes.take cap ++ List.replicate (cap - r.bytes.length) 0

/-- Python truthiness of an optional string: `None` and the empty string
are falsy (`if self._user:`). -/
def pyTruthy (s : Option String) : Bool :=
  s.getD "" != ""

/-- The `x is None or x == ''` test used by `chown` on its `user` and
`group` arguments. -/
def pyEmptyStr (s : Option String) : Bool :=
  s.getD "" == ""

/-- `get_jpath(path)`: rejects the empty path with
`ValueError("Empty path")`, otherwise builds the backend path object
(modeled by the path string itself). -/
def get_jpath (path : String) : Except PyErr String :=
  if path = "" then .error (.valueError "Empty path") else .ok path

/-- `java.lang.Long.valueOf(x).intValue()`: the Java narrowing
conversion of a long to a signed 32-bit int (the low 32 bits,
interpreted as a signed value). -/
def jintValue (x : Int) : Int :=
  (x + 2 ^ 31) % 2 ^ 32 - 2 ^ 31

/-- A File Handle (`CoreHdfsFile`): the open mode, the backend stream
reference (`None` modeled as `none`), the stream-type tag and the
`BufferedOutputStream` wrapper built in `__init__` for OUTPUT handles. -/
structure CoreHdfsFile where
  _mode : Nat
  _stream : Option JStream
  _stream_type : Int
  _buffered_stream : Option JBufferedStream
  deriving Repr, DecidableEq

/-- `CoreHdfsFile._INPUT = 0`. -/
def CoreHdfsFile._INPUT : Int := 0

/-- `CoreHdfsFile._OUTPUT = 1`. -/
def CoreHdfsFile._OUTPUT : Int := 1

/-- `CoreHdfsFile.__init__(mode, stream, stream_type)`: records the
arguments; an OUTPUT handle additionally builds a `BufferedOutputStream`
around the raw stream (the byte-array constructor also created there is
not needed by any property). -/
def CoreHdfsFile.init (mode : Nat) (stream : Option JStream) (stream_type : Int) :
    CoreHdfsFile :=
  { _mode := mode
    _stream := stream
    _stream_type := stream_type
    _buffered_stream :=
      if stream_type = CoreHdfsFile._OUTPUT then
        some { raw := stream, buffer := [] }
      else none }

/-- `close()`: raises `IOError` when there is no stream; otherwise calls
`self._stream.close()` on the backend (exceptions from the backend close
are re-raised as `IOError`; the success path is modeled).  The source
never assigns `self._stream = None`, so the handle keeps its (now
closed) stream reference. -/
def CoreHdfsFile.close (self : CoreHdfsFile) : Except PyErr CoreHdfsFile :=
  match self._stream with
  | none => .error (.ioError "")
  | some s => .ok { self with _stream := some s.jclose }

/-- `tell()`: raises `IOError` when there is no stream; otherwise returns
`long(self._stream.getPos())` — the position recorded in the backend
stream state (the call is made outside any exception handler). -/
def CoreHdfsFile.tell (self : CoreHdfsFile) : Except PyErr Int :=
  match self._stream with
  | none => .error (.ioError "")
  | some s => .ok s.pos

/-- `_write(data, length)`: raises `IOError` unless the handle has a
stream and is OUTPUT; raises `IOError` for a negative length; issues
`self._stream.write(self._jbytearray(data))` only when `length > 0`;
returns `length`.  The result carries the list of backend write calls
issued (target object and bytes) so that theorems can talk about which
stream received the data. -/
def CoreHdfsFile._write (self : CoreHdfsFile) (data : List Int) (length : Int) :
    Except PyErr (Int × List (WriteTarget × List Int)) :=
  if self._stream = none ∨ self._stream_type ≠ CoreHdfsFile._OUTPUT then
    .error (.ioError "")
  else if length < 0 then
    .error (.ioError "")
  else if length > 0 then
    .ok (length, [(WriteTarget.raw, data)])
  else
    .ok (length, [])

/-- `write(data)` delegates: `self._write(data, len(data))`. -/
def CoreHdfsFile.write (self : CoreHdfsFile) (data : List Int) :
    Except PyErr (Int × List (WriteTarget × List Int)) :=
  self._write data data.length

/-- `write_chunk(chunk)` delegates:
`self._write(chunk.value, len(chunk.value))`. -/
def CoreHdfsFile.write_chunk (self : CoreHdfsFile) (chunk : Chunk) :
    Except PyErr (Int × List (WriteTarget × List Int)) :=
  self._write chunk.value chunk.value.length

/-- `read(length)` with `r` the backend response to the single
`self._stream.read(buf)` call: INPUT/liveness guard, `-1` sentinel
resolving to `BUFSIZE`, buffer allocation, end-of-stream check, then
byte normalization of the `buf[:read]` slice.  (A negative capacity
makes `ByteBuffer.allocate` throw; the surrounding `try` turns that
into `IOError`.) -/
def CoreHdfsFile.read (self : CoreHdfsFile) (length : Int) (r : BackendRead) :
    Except PyErr (List Int) :=
  if self._stream = none ∨ self._stream_type ≠ CoreHdfsFile._INPUT then
    .error (.ioError "")
  else
    let length2 := if length = -1 then BUFSIZE else length
    if length2 < 0 then .error (.ioError "")
    else
      let buf := bufferAfterRead length2.toNat r
      if r.count = -1 then .ok []
      else .ok ((pySliceTo buf r.count).map toUByte)

/-- The value `read_chunk` returns to the caller: either a Python string
(the `""` returned at end of stream) or the integer read count. -/
inductive ChunkReadResult where
  | str (s : List Int)
  | count (n : Int)
  deriving Repr, DecidableEq

/-- `read_chunk(chunk)` with `r` the backend response: like `read` but
the requested length is `len(chunk)`; at end of stream it returns `""`
without touching the chunk, otherwise it assigns the normalized
`buf[:read]` slice to `chunk.value` and returns the count.  The result
pairs the (possibly mutated) chunk with the returned value. -/
def CoreHdfsFile.read_chunk (self : CoreHdfsFile) (chunk : Chunk) (r : BackendRead) :
    Except PyErr (Chunk × ChunkReadResult) :=
  if self._stream = none ∨ self._stream_type ≠ CoreHdfsFile._INPUT then
    .error (.ioError "")
  else
    let buf := bufferAfterRead chunk.size r
    if r.count = -1 then .ok (chunk, ChunkReadResult.str [])
    else
      .ok ({ chunk with value := (pySliceTo buf r.count).map toUByte },
        ChunkReadResult.count r.count)

/-- `pread(position, length)` with `r` the backend response to the
positional `self._stream.read(long(position), buf, 0, length)` call.
Unlike `read`, the source has no `read == -1` check here: the
`buf[:read]` slice is taken for whatever count the backend returned. -/
def CoreHdfsFile.pread (self : CoreHdfsFile) (position length : Int) (r : BackendRead) :
    Except PyErr (List Int) :=
  if self._stream = none ∨ self._stream_type ≠ CoreHdfsFile._INPUT then
    .error (.ioError "")
  else
    let length2 := if length = -1 then BUFSIZE else length
    if length2 < 0 then .error (.ioError "")
    else
      let buf := bufferAfterRead length2.toNat r
      .ok ((pySliceTo buf r.count).map toUByte)

/-- `pread_chunk(position, chunk)` with `r` the backend response.  As in
`pread` there is no `read == -1` check: `chunk.value` is assigned the
normalized `buf[:read]` slice and the raw count is returned. -/
def CoreHdfsFile.pread_chunk (self : CoreHdfsFile) (position : Int) (chunk : Chunk)
    (r : BackendRead) : Except PyErr (Chunk × Int) :=
  if self._stream = none ∨ self._stream_type ≠ CoreHdfsFile._INPUT then
    .error (.ioError "")
  else
    let buf := bufferAfterRead chunk.size r
    .ok ({ chunk with value := (pySliceTo buf r.count).map toUByte }, r.count)

/-- Outcome of `CoreHdfsFs._connect`: which backend resolution call is
made, together with the impersonated user passed to `FileSystem.get`
(`none` when the two-argument overload is used). -/
inductive FsResolution where
  | getLocal
  | defaultUri (user : Option String)
  | explicitUri (uri : String) (user : Option String)
  deriving Repr, DecidableEq

/-- `CoreHdfsFs._connect`: the three resolution branches evaluated in
order — empty/absent host → `getLocal`; host `"default"` with port 0 →
`getDefaultUri` then `get` (three-argument overload when `self._user`
is truthy); otherwise → `URI.create("hdfs://%s:%s" % (host, port))`
then `get` (again with the user when truthy). -/
def CoreHdfsFs._connect (host : Option String) (port : Int) (user : Option String) :
    FsResolution :=
  if host = none ∨ host = some "" then
    FsResolution.getLocal
  else if host = some "default" ∧ port = 0 then
    FsResolution.defaultUri (if pyTruthy user then user else none)
  else
    FsResolution.explicitUri ("hdfs://" ++ host.getD "" ++ ":" ++ toString port)
      (if pyTruthy user then user else none)

/-- The fields of a backend `FileStatus` record read by
`_get_jpath_info`. -/
structure JFileStatus where
  group : String
  owner : String
  modificationTime : Int
  accessTime : Int
  replication : Int
  permissions : Int
  size : Int
  pathStr : String
  deriving Repr, DecidableEq

/-- The backend queries `_get_jpath_info` makes on the path and the
filesystem: `jpath.toString()`, `fs.isDirectory(jpath)`,
`fs.getBlockSize(jpath)`, `fs.getUri().toString()`, `jpath.depth()`,
`jpath.isAbsolute()`, and the parent segment name when
`jpath.getParent()` is non-null. -/
structure JPathView where
  toStr : String
  isDir : Bool
  blockSize : Int
  fsUri : String
  depth : Int
  absolute : Bool
  parentName : Option String
  deriving Repr, DecidableEq

/-- The canonical path metadata record built by `_get_jpath_info`. -/
structure PathInfo where
  name : String
  kind : String
  group : String
  last_mod : Int
  last_access : Int
  replication : Int
  owner : String
  permissions : Int
  block_size : Int
  path : String
  fs_uri : String
  depth : Int
  size : Int
  absolute : Bool
  parent : Option String
  deriving Repr, DecidableEq

/-- `_get_jpath_info(jpath, jstatus)` on a successfully fetched status
record: field-by-field construction of the metadata record; the two
timestamps go through `Long.valueOf(...).intValue()` (`jintValue`). -/
def CoreHdfsFs._get_jpath_info (view : JPathView) (st : JFileStatus) : PathInfo :=
  { name := view.toStr
    kind := if view.isDir then "directory" else "file"
    group := st.group
    last_mod := jintValue st.modificationTime
    last_access := jintValue st.accessTime
    replication := st.replication
    owner := st.owner
    permissions := st.permissions
    block_size := view.blockSize
    path := st.pathStr
    fs_uri := view.fsUri
    depth := view.depth
    size := st.size
    absolute := view.absolute
    parent := view.parentName }

/-- `chown(path, user, group)`: raises when both `user` and `group` are
absent/empty; otherwise builds the path, fetches the current metadata
(`status` is the outcome of the `getFileStatus` fetch inside
`_get_jpath_info`; `none` means the fetch threw, which `_get_jpath_info`
reports as `IOError`), fills the absent argument from the current
owner/group, and calls `setOwner`.  The returned pair is the
`(user, group)` argument pair passed to the backend `setOwner` call. -/
def CoreHdfsFs.chown (path : String) (user group : Option String)
    (view : JPathView) (status : Option JFileStatus) :
    Except PyErr (String × String) :=
  if pyEmptyStr user && pyEmptyStr group then
    .error (.exception "Both owner and group cannot be null in chown")
  else
    match get_jpath path with
    | .error e => .error e
    | .ok _ =>
      match status with
      | none => .error (.ioError "")
      | some st =>
        let old := CoreHdfsFs._get_jpath_info view st
        let user2 := if pyEmptyStr user then old.owner else user.getD ""
        let group2 := if pyEmptyStr group then old.group else group.getD ""
        .ok (user2, group2)

/-- Which backend stream-opening call `open_file` made. -/
inductive BackendStreamCall where
  | openCall
  | appendCall
  | createCall
  deriving Repr, DecidableEq

/-- The configuration / backend values `open_file` may read:
`configuration.getInt("dfs.blocksize", 4096)` (used as buffer-size
default), `configuration.getInt("dfs.replication", 1)`,
`fs.getDefaultBlockSize(jpath)`, and the stream object the backend
returns from `open`/`append`/`create`. -/
structure FsEnv where
  configBlocksize : Int
  configReplication : Int
  defaultBlockSize : Int
  newStream : JStream
  deriving Repr, DecidableEq

/-- `open_file(path, flags, buff_size, replication, blocksize, ...)`:
accmode decoding (rejecting anything that is neither write-only nor
read-only before anything else happens), the `O_CREAT && O_EXCL`
warning (a log line, no behavior), buffer-size and replication
defaulting, path construction, and the three stream-opening branches.
Returns the list of backend stream-opening calls issued together with
the outcome. -/
def CoreHdfsFs.open_file (env : FsEnv) (path : String) (flags : Nat)
    (buff_size replication blocksize : Int) :
    List BackendStreamCall × Except PyErr CoreHdfsFile :=
  let accmode := flags &&& O_ACCMODE
  if accmode ≠ O_WRONLY ∧ accmode ≠ O_RDONLY then
    if accmode = O_RDWR then
      ([], .error (.ioError "Cannot open an hdfs file in O_RDWR mode"))
    else
      ([], .error (.ioError ("Cannot open an hdfs file in mode " ++ toString accmode)))
  else
    let _buff_size2 := if buff_size = 0 then env.configBlocksize else buff_size
    let _replication2 :=
      if accmode = O_WRONLY ∧ flags &&& O_APPEND = 0 ∧ replication = 0 then
        env.configReplication
      else replication
    match get_jpath path with
    | .error e => ([], .error e)
    | .ok _ =>
      if accmode = O_RDONLY then
        ([BackendStreamCall.openCall],
          .ok (CoreHdfsFile.init flags (some env.newStream) CoreHdfsFile._INPUT))
      else if accmode = O_WRONLY ∧ flags &&& O_APPEND ≠ 0 then
        ([BackendStreamCall.appendCall],
          .ok (CoreHdfsFile.init flags (some env.newStream) CoreHdfsFile._OUTPUT))
      else
        let _blocksize2 := if blocksize = 0 then env.defaultBlockSize else blocksize
        ([BackendStreamCall.createCall],
          .ok (CoreHdfsFile.init flags (some env.newStream) CoreHdfsFile._OUTPUT))

/-! Helper lemmas shared by the claim theorems. -/

/-- Every normalized byte lies in the unsigned range [0, 255]. -/
theorem toUByte_range (x : Int) : 0 ≤ toUByte x ∧ toUByte x ≤ 255 := by
  unfold toUByte
  constructor
  · exact Int.emod_nonneg _ (by norm_num)
  · have h := Int.emod_lt_of_pos (x + 256) (show (0 : Int) < 256 by norm_num)
    omega

/-- Every element of a normalized byte list lies in [0, 255]. -/
theorem mem_map_toUByte_range (l : List Int) (x : Int) (hx : x ∈ l.map toUByte) :
    0 ≤ x ∧ x ≤ 255 := by
  rcases List.mem_map.mp hx with ⟨y, _, rfl⟩
  exact toUByte_range y

/-- Every successful `read` result is a `toUByte`-normalized list. -/
theorem read_ok_is_map (self : CoreHdfsFile) (length : Int) (r : BackendRead)
    (s : List Int) (h : CoreHdfsFile.read self length r = .ok s) :
    ∃ l : List Int, s = l.map toUByte := by
  simp only [CoreHdfsFile.read] at h
  by_cases hg : self._stream = none ∨ self._stream_type ≠ CoreHdfsFile._INPUT
  · rw [if_pos hg] at h
    exact Except.noConfusion h
  · rw [if_neg hg] at h
    by_cases hl : (if length = -1 then BUFSIZE else length) < 0
    · rw [if_pos hl] at h
      exact Except.noConfusion h
    · rw [if_neg hl] at h
      by_cases hc : r.count = -1
      · rw [if_pos hc] at h
        injection h with h2
        exact ⟨[], h2.symm⟩
      · rw [if_neg hc] at h
        injection h with h2
        exact ⟨_, h2.symm⟩

/-- Every successful `pread` result is a `toUByte`-normalized list. -/
theorem pread_ok_is_map (self : CoreHdfsFile) (position length : Int) (r : BackendRead)
    (s : List Int) (h : CoreHdfsFile.pread self position length r = .ok s) :
    ∃ l : List Int, s = l.map toUByte := by
  simp only [CoreHdfsFile.pread] at h
  by_cases hg : self._stream = none ∨ self._stream_type ≠ CoreHdfsFile._INPUT
  · rw [if_pos hg] at h
    exact Except.noConfusion h
  · rw [if_neg hg] at h
    by_cases hl : (if length = -1 then BUFSIZE else length) < 0
    · rw [if_pos hl] at h
      exact Except.noConfusion h
    · rw [if_neg hl] at h
      injection h with h2
      exact ⟨_, h2.symm⟩

/-- A successful `read_chunk` either hits end of stream (empty-string
result, chunk untouched) or produces a `toUByte`-normalized chunk value
with the integer count. -/
theorem read_chunk_ok_cases (self : CoreHdfsFile) (chunk : Chunk) (r : BackendRead)
    (c : Chunk) (out : ChunkReadResult)
    (h : CoreHdfsFile.read_chunk self chunk r = .ok (c, out)) :
    (out = ChunkReadResult.str [] ∧ c = chunk) ∨
    (out = ChunkReadResult.count r.count ∧ ∃ l : List Int, c.value = l.map toUByte) := by
  simp only [CoreHdfsFile.read_chunk] at h
  by_cases hg : self._stream = none ∨ self._stream_type ≠ CoreHdfsFile._INPUT
  · rw [if_pos hg] at h
    exact Except.noConfusion h
  · rw [if_neg hg] at h
    by_cases hc : r.count = -1
    · rw [if_pos hc] at h
      injection h with h2
      left
      exact ⟨congrArg Prod.snd h2.symm, congrArg Prod.fst h2.symm⟩
    · rw [if_neg hc] at h
      injection h with h2
      right
      refine ⟨congrArg Prod.snd h2.symm, ?_⟩
      have hv := congrArg Prod.fst h2.symm
      exact ⟨_, congrArg Chunk.value hv⟩

/-- Every successful `pread_chunk` leaves a `toUByte`-normalized chunk
value. -/
theorem pread_chunk_ok_is_map (self : CoreHdfsFile) (position : Int) (chunk : Chunk)
    (r : BackendRead) (c : Chunk) (n : Int)
    (h : CoreHdfsFile.pread_chunk self position chunk r = .ok (c, n)) :
    ∃ l : List Int, c.value = l.map toUByte := by
  simp only [CoreHdfsFile.pread_chunk] at h
  by_cases hg : self._stream = none ∨ self._stream_type ≠ CoreHdfsFile._INPUT
  · rw [if_pos hg] at h
    exact Except.noConfusion h
  · rw [if_neg hg] at h
    injection h with h2
    have hv := congrArg Prod.fst h2.symm
    exact ⟨_, congrArg Chunk.value hv⟩

/-! Claim theorems. -/

/-- Claim C1, code-bug evidence: on an INPUT handle at end of stream
(backend read count -1, requested length 4), `read` and `read_chunk`
return the explicit empty result, but `pread` returns three NUL bytes —
the Python slice `buf[:-1]` of the freshly allocated zero-filled buffer
— and `pread_chunk` returns the raw count -1 and overwrites the chunk
with those bytes.  Neither positional variant produces the empty result
the claim requires. -/
theorem pread_eof_failing_input_eval :
    CoreHdfsFile.read
        { _mode := 0, _stream := some { pos := 0, closed := false },
          _stream_type := 0, _buffered_stream := none } 4
        { count := -1, bytes := [] } = .ok [] ∧
    CoreHdfsFile.read_chunk
        { _mode := 0, _stream := some { pos := 0, closed := false },
          _stream_type := 0, _buffered_stream := none }
        { size := 4, value := [1, 1, 1, 1] }
        { count := -1, bytes := [] } =
      .ok ({ size := 4, value := [1, 1, 1, 1] }, ChunkReadResult.str []) ∧
    CoreHdfsFile.pread
        { _mode := 0, _stream := some { pos := 0, closed := false },
          _stream_type := 0, _buffered_stream := none } 0 4
        { count := -1, bytes := [] } = .ok [0, 0, 0] ∧
    CoreHdfsFile.pread_chunk
        { _mode := 0, _stream := some { pos := 0, closed := false },
          _stream_type := 0, _buffered_stream := none } 0
        { size := 4, value := [1, 1, 1, 1] }
        { count := -1, bytes := [] } =
      .ok ({ size := 4, value := [0, 0, 0] }, -1) ∧
    ([0, 0, 0] : List Int) ≠ [] :=
  ⟨rfl, rfl, rfl, rfl, by decide⟩

/-- Claim C2, counterexample: on a freshly constructed OUTPUT handle the
single backend write issued by `_write` targets the raw stream, not the
buffering wrapper built at construction — refuting the claim that the
data is sent through the buffering wrapper rather than written directly
to the raw backend stream. -/
theorem write_bypasses_buffer_counterexample :
    CoreHdfsFile._write
        (CoreHdfsFile.init 1 (some { pos := 0, closed := false }) 1)
        [1, 2, 3] 3 = .ok (3, [(WriteTarget.raw, [1, 2, 3])]) ∧
    WriteTarget.raw ≠ WriteTarget.buffered :=
  ⟨rfl, by decide⟩

/-- Claim C2, amended: every backend write issued by `_write` — and hence
by `write` and `write_chunk`, which delegate to it — is issued on the
raw stream; the buffering wrapper built at construction is never
written. -/
theorem write_targets_raw_stream (self : CoreHdfsFile) (data : List Int)
    (length n : Int) (effs : List (WriteTarget × List Int))
    (h : CoreHdfsFile._write self data length = .ok (n, effs)) :
    (∀ e ∈ effs, e.1 = WriteTarget.raw) ∧
    CoreHdfsFile.write self data = CoreHdfsFile._write self data data.length ∧
    CoreHdfsFile.write_chunk self { size := data.length, value := data } =
      CoreHdfsFile._write self data data.length := by
  refine ⟨?_, rfl, rfl⟩
  unfold CoreHdfsFile._write at h
  split at h
  · exact absurd h (by simp)
  · split at h
    · exact absurd h (by simp)
    · split at h
      · simp only [Except.ok.injEq, Prod.mk.injEq] at h
        rw [← h.2]
        intro e he
        simp only [List.mem_singleton] at he
        rw [he]
      · simp only [Except.ok.injEq, Prod.mk.injEq] at h
        rw [← h.2]
        intro e he
        simp at he

/-- Witness for the amended Claim C2 theorem at a concrete OUTPUT
handle. -/
theorem write_targets_raw_stream_witness :
    CoreHdfsFile._write
        (CoreHdfsFile.init 1 (some { pos := 0, closed := false }) 1)
        [7] 1 = .ok (1, [(WriteTarget.raw, [7])]) ∧
    ∀ e ∈ ([(WriteTarget.raw, [7])] : List (WriteTarget × List Int)),
      e.1 = WriteTarget.raw :=
  ⟨rfl,
    (write_targets_raw_stream
      (CoreHdfsFile.init 1 (some { pos := 0, closed := false }) 1)
      [7] 1 1 [(WriteTarget.raw, [7])] rfl).1⟩

/-- Claim C3, code-bug evidence: the timestamps of the metadata record
are coerced through `Long.valueOf(...).intValue()`, a *narrowing*
signed-32-bit conversion.  A backend modification time of
1500000000000 (milliseconds since the epoch, i.e. mid 2017) is stored
as 1056413696 — truncated, contradicting the claim that large backend
timestamps are carried through without overflow or truncation. -/
theorem path_info_timestamp_truncation_eval :
    (CoreHdfsFs._get_jpath_info
        { toStr := "/f", isDir := false, blockSize := 0, fsUri := "hdfs://h:1",
          depth := 1, absolute := true, parentName := some "/" }
        { group := "g", owner := "o", modificationTime := 1500000000000,
          accessTime := 1500000000000, replication := 1, permissions := 420,
          size := 0, pathStr := "/f" }).last_mod = 1056413696 ∧
    (1056413696 : Int) ≠ 1500000000000 := by
  constructor
  · norm_num [CoreHdfsFs._get_jpath_info, jintValue]
  · norm_num

/-- Claim C4, counterexample: `close()` does not invalidate the handle.
After a successful close the stream reference is still set, `tell()`
still succeeds (returning the stream position) and a second `close()`
also succeeds — refuting the claim that every subsequent operation on a
closed handle fails. -/
theorem close_not_invalidating_counterexample :
    CoreHdfsFile.close
        { _mode := 0, _stream := some { pos := 7, closed := false },
          _stream_type := 0, _buffered_stream := none } =
      .ok { _mode := 0, _stream := some { pos := 7, closed := true },
            _stream_type := 0, _buffered_stream := none } ∧
    CoreHdfsFile.tell
        { _mode := 0, _stream := some { pos := 7, closed := true },
          _stream_type := 0, _buffered_stream := none } = .ok 7 ∧
    CoreHdfsFile.close
        { _mode := 0, _stream := some { pos := 7, closed := true },
          _stream_type := 0, _buffered_stream := none } =
      .ok { _mode := 0, _stream := some { pos := 7, closed := true },
            _stream_type := 0, _buffered_stream := none } :=
  ⟨rfl, rfl, rfl⟩

/-- Claim C4, amended: a successful `close()` leaves the stream
reference and the stream-type tag in place (only the backend stream is
marked closed), so the handle is not invalidated at this layer:
subsequent operations pass the handle's own null/stream-type guard and
are forwarded to the closed backend stream — in particular `tell()`
still returns the stream position and a second `close()` succeeds.  An
operation fails after close only if the backend stream itself rejects
it. -/
theorem close_keeps_stream_reference (self : CoreHdfsFile) (s : JStream)
    (h : self._stream = some s) :
    CoreHdfsFile.close self = .ok { self with _stream := some s.jclose } ∧
    ({ self with _stream := some s.jclose } : CoreHdfsFile)._stream ≠ none ∧
    ({ self with _stream := some s.jclose } : CoreHdfsFile)._stream_type =
      self._stream_type ∧
    CoreHdfsFile.tell { self with _stream := some s.jclose } = .ok s.pos ∧
    CoreHdfsFile.close { self with _stream := some s.jclose } =
      .ok { self with _stream := some s.jclose.jclose } := by
  refine ⟨?_, by simp, rfl, rfl, rfl⟩
  unfold CoreHdfsFile.close
  rw [h]

/-- Witness for the amended Claim C4 theorem at a concrete INPUT
handle. -/
theorem close_keeps_stream_reference_witness :
    ({ _mode := 0, _stream := some { pos := 3, closed := false },
       _stream_type := 0, _buffered_stream := none } : CoreHdfsFile)._stream =
      some { pos := 3, closed := false } ∧
    (CoreHdfsFile.close
        { _mode := 0, _stream := some { pos := 3, closed := false },
          _stream_type := 0, _buffered_stream := none } =
      .ok { _mode := 0, _stream := some { pos := 3, closed := true },
            _stream_type := 0, _buffered_stream := none } ∧
     CoreHdfsFile.tell
        { _mode := 0, _stream := some { pos := 3, closed := true },
          _stream_type := 0, _buffered_stream := none } = .ok 3) :=
  ⟨rfl, by
    have h := close_keeps_stream_reference
      { _mode := 0, _stream := some { pos := 3, closed := false },
        _stream_type := 0, _buffered_stream := none }
      { pos := 3, closed := false } rfl
    exact ⟨h.1, h.2.2.2.1⟩⟩

/-- Claim C5, confirmed: `_connect` resolves the connection by three
mutually exclusive branches evaluated in order — an empty or absent
host connects to the local filesystem whatever the port; host
`"default"` with port 0 resolves the cluster default URI (with the
user when a non-empty one is supplied); any other host/port
combination builds and resolves `hdfs://host:port` (again with the
user when supplied). -/
theorem connect_three_branches (host : String) (port : Int) (user : Option String)
    (hh : host ≠ "") (hnd : ¬(host = "default" ∧ port = 0)) :
    CoreHdfsFs._connect none port user = FsResolution.getLocal ∧
    CoreHdfsFs._connect (some "") port user = FsResolution.getLocal ∧
    CoreHdfsFs._connect (some "default") 0 user =
      FsResolution.defaultUri (if pyTruthy user then user else none) ∧
    CoreHdfsFs._connect (some host) port user =
      FsResolution.explicitUri ("hdfs://" ++ host ++ ":" ++ toString port)
        (if pyTruthy user then user else none) := by
  refine ⟨by simp [CoreHdfsFs._connect], by simp [CoreHdfsFs._connect], ?_, ?_⟩
  · unfold CoreHdfsFs._connect
    rw [if_neg (by decide), if_pos (by decide)]
  · unfold CoreHdfsFs._connect
    rw [if_neg (by simp [hh]), if_neg (by simpa using hnd)]
    rfl

/-- Witness for the Claim C5 theorem at the spec's scenario inputs
(`node1:9000` with user `alice`). -/
theorem connect_three_branches_witness :
    (("node1" : String) ≠ "" ∧ ¬(("node1" : String) = "default" ∧ (9000 : Int) = 0)) ∧
    (CoreHdfsFs._connect none 9000 (some "alice") = FsResolution.getLocal ∧
     CoreHdfsFs._connect (some "") 9000 (some "alice") = FsResolution.getLocal ∧
     CoreHdfsFs._connect (some "default") 0 (some "alice") =
       FsResolution.defaultUri (if pyTruthy (some "alice") then some "alice" else none) ∧
     CoreHdfsFs._connect (some "node1") 9000 (some "alice") =
       FsResolution.explicitUri ("hdfs://" ++ "node1" ++ ":" ++ toString (9000 : Int))
         (if pyTruthy (some "alice") then some "alice" else none)) :=
  ⟨⟨by decide, by decide⟩,
    connect_three_branches "node1" 9000 (some "alice") (by decide) (by decide)⟩

/-- Claim C6, confirmed: whenever the masked accmode is neither
write-only nor read-only (read-write in particular, and the remaining
unrecognized value 3), `open_file` fails with an `IOError` — the spec's
InvalidArgument — whatever the other flag bits and arguments are, and
no backend stream-opening call is issued. -/
theorem open_file_rejects_bad_accmode (env : FsEnv) (path : String) (flags : Nat)
    (buff_size replication blocksize : Int)
    (h1 : flags &&& O_ACCMODE ≠ O_WRONLY) (h2 : flags &&& O_ACCMODE ≠ O_RDONLY) :
    (CoreHdfsFs.open_file env path flags buff_size replication blocksize).1 = [] ∧
    ∃ msg, (CoreHdfsFs.open_file env path flags buff_size replication blocksize).2 =
      .error (.ioError msg) := by
  simp only [CoreHdfsFs.open_file]
  rw [if_pos ⟨h1, h2⟩]
  by_cases hc : flags &&& O_ACCMODE = O_RDWR
  · rw [if_pos hc]
    exact ⟨rfl, _, rfl⟩
  · rw [if_neg hc]
    exact ⟨rfl, _, rfl⟩

/-- Witness for the Claim C6 theorem at `flags = os.O_RDWR`. -/
theorem open_file_rejects_bad_accmode_witness :
    ((2 : Nat) &&& O_ACCMODE ≠ O_WRONLY ∧ (2 : Nat) &&& O_ACCMODE ≠ O_RDONLY) ∧
    (CoreHdfsFs.open_file
        { configBlocksize := 4096, configReplication := 1,
          defaultBlockSize := 134217728, newStream := { pos := 0, closed := false } }
        "/f" 2 0 1 0).1 = [] ∧
    ∃ msg, (CoreHdfsFs.open_file
        { configBlocksize := 4096, configReplication := 1,
          defaultBlockSize := 134217728, newStream := { pos := 0, closed := false } }
        "/f" 2 0 1 0).2 = .error (.ioError msg) :=
  ⟨⟨by decide, by decide⟩,
    open_file_rejects_bad_accmode
      { configBlocksize := 4096, configReplication := 1,
        defaultBlockSize := 134217728, newStream := { pos := 0, closed := false } }
      "/f" 2 0 1 0 (by decide) (by decide)⟩

/-- Claim C7, confirmed: `chown` fails (with the bare `Exception` this
layer uses for the invalid-argument case) when both `user` and `group`
are absent/empty; when exactly one of them is empty, the current
metadata is fetched and the backend `setOwner` call receives the
supplied value together with the path's current owner (resp. group) for
the absent one — so the unspecified attribute is set to its prior
value, i.e. left unchanged. -/
theorem chown_fill_semantics (path : String) (user group : Option String)
    (view : JPathView) (st : JFileStatus) (hp : path ≠ "") :
    (pyEmptyStr user = true → pyEmptyStr group = true →
      CoreHdfsFs.chown path user group view (some st) =
        .error (.exception "Both owner and group cannot be null in chown")) ∧
    (pyEmptyStr user = true → pyEmptyStr group = false →
      CoreHdfsFs.chown path user group view (some st) =
        .ok (st.owner, group.getD "")) ∧
    (pyEmptyStr user = false → pyEmptyStr group = true →
      CoreHdfsFs.chown path user group view (some st) =
        .ok (user.getD "", st.group)) := by
  refine ⟨fun hu hg => ?_, fun hu hg => ?_, fun hu hg => ?_⟩ <;>
    simp [CoreHdfsFs.chown, get_jpath, hp, hu, hg, CoreHdfsFs._get_jpath_info]

/-- Witness for the Claim C7 theorem: `chown("/f", "alice", "")` passes
`("alice", "staff")` to `setOwner` when the path's current group is
`"staff"`. -/
theorem chown_fill_semantics_witness :
    (("/f" : String) ≠ "" ∧ pyEmptyStr (some "alice") = false ∧
      pyEmptyStr (none : Option String) = true) ∧
    CoreHdfsFs.chown "/f" (some "alice") none
        { toStr := "/f", isDir := false, blockSize := 0, fsUri := "hdfs://h:1",
          depth := 1, absolute := true, parentName := some "/" }
        (some { group := "staff", owner := "bob", modificationTime := 0,
                accessTime := 0, replication := 1, permissions := 420,
                size := 0, pathStr := "/f" }) = .ok ("alice", "staff") :=
  ⟨⟨by decide, by decide, by decide⟩,
    (chown_fill_semantics "/f" (some "alice") none
        { toStr := "/f", isDir := false, blockSize := 0, fsUri := "hdfs://h:1",
          depth := 1, absolute := true, parentName := some "/" }
        { group := "staff", owner := "bob", modificationTime := 0,
          accessTime := 0, replication := 1, permissions := 420,
          size := 0, pathStr := "/f" }
        (by decide)).2.2 (by decide) (by decide)⟩

/-- Claim C8, confirmed: on an OUTPUT handle with a live stream,
`_write` with a requested length `L ≥ 0` returns exactly `L`; when
`L = 0` no backend write call is issued while zero is still reported;
a negative requested length fails with `IOError` (the spec's
InvalidArgument). -/
theorem write_length_semantics (self : CoreHdfsFile) (data : List Int) (length : Int)
    (hs : self._stream ≠ none) (ht : self._stream_type = CoreHdfsFile._OUTPUT) :
    (0 ≤ length →
      CoreHdfsFile._write self data length =
        .ok (length, if length = 0 then [] else [(WriteTarget.raw, data)])) ∧
    (length < 0 → CoreHdfsFile._write self data length = .error (.ioError "")) := by
  unfold CoreHdfsFile._write
  rw [if_neg (by simp [hs, ht])]
  constructor
  · intro h0
    rw [if_neg (by omega)]
    by_cases hz : length = 0
    · rw [if_neg (by omega), if_pos hz]
    · rw [if_pos (by omega), if_neg hz]
  · intro hneg
    rw [if_pos hneg]

/-- Witness for the Claim C8 theorem: a two-byte write on a fresh OUTPUT
handle returns 2. -/
theorem write_length_semantics_witness :
    ((CoreHdfsFile.init 1 (some { pos := 0, closed := false }) 1)._stream ≠ none ∧
     (CoreHdfsFile.init 1 (some { pos := 0, closed := false }) 1)._stream_type =
       CoreHdfsFile._OUTPUT ∧ (0 : Int) ≤ 2) ∧
    CoreHdfsFile._write (CoreHdfsFile.init 1 (some { pos := 0, closed := false }) 1)
      [5, 6] 2 = .ok (2, [(WriteTarget.raw, [5, 6])]) :=
  ⟨⟨by decide, by decide, by decide⟩, by
    have h := (write_length_semantics
      (CoreHdfsFile.init 1 (some { pos := 0, closed := false }) 1)
      [5, 6] 2 (by decide) (by decide)).1 (by decide)
    simpa using h⟩

/-- Claim C9, confirmed: on every successful read variant, each element
placed into the returned byte sequence (or into the mutated chunk) is
the `chr((x + 256) % 256)` normalization of a buffer element, so it
lies in the unsigned range [0, 255]; a signed backend byte in
[-128, -1] maps to [128, 255]. -/
theorem read_byte_normalization (self : CoreHdfsFile) (length position : Int)
    (chunk : Chunk) (r : BackendRead) :
    (∀ s, CoreHdfsFile.read self length r = .ok s → ∀ x ∈ s, 0 ≤ x ∧ x ≤ 255) ∧
    (∀ s, CoreHdfsFile.pread self position length r = .ok s →
      ∀ x ∈ s, 0 ≤ x ∧ x ≤ 255) ∧
    (∀ c n, CoreHdfsFile.read_chunk self chunk r = .ok (c, ChunkReadResult.count n) →
      ∀ x ∈ c.value, 0 ≤ x ∧ x ≤ 255) ∧
    (∀ c n, CoreHdfsFile.pread_chunk self position chunk r = .ok (c, n) →
      ∀ x ∈ c.value, 0 ≤ x ∧ x ≤ 255) ∧
    (∀ b : Int, -128 ≤ b → b ≤ -1 →
      toUByte b = b + 256 ∧ 128 ≤ toUByte b ∧ toUByte b ≤ 255) := by
  refine ⟨?_, ?_, ?_, ?_, ?_⟩
  · intro s h
    obtain ⟨l, rfl⟩ := read_ok_is_map self length r s h
    exact fun x hx => mem_map_toUByte_range l x hx
  · intro s h
    obtain ⟨l, rfl⟩ := pread_ok_is_map self position length r s h
    exact fun x hx => mem_map_toUByte_range l x hx
  · intro c n h
    rcases read_chunk_ok_cases self chunk r c (ChunkReadResult.count n) h with
      ⟨hout, _⟩ | ⟨_, l, hv⟩
    · exact ChunkReadResult.noConfusion hout
    · rw [hv]
      exact fun x hx => mem_map_toUByte_range l x hx
  · intro c n h
    obtain ⟨l, hv⟩ := pread_chunk_ok_is_map self position chunk r c n h
    rw [hv]
    exact fun x hx => mem_map_toUByte_range l x hx
  · intro b h1 h2
    have he : toUByte b = b + 256 := by
      unfold toUByte
      rw [Int.emod_eq_of_lt (by omega) (by omega)]
    exact ⟨he, by omega, by omega⟩

/-- Witness for the Claim C9 theorem: a backend buffer holding the
signed bytes [-1, 7] is returned by `read` as [255, 7]. -/
theorem read_byte_normalization_witness :
    CoreHdfsFile.read
        { _mode := 0, _stream := some { pos := 0, closed := false },
          _stream_type := 0, _buffered_stream := none } 2
        { count := 2, bytes := [-1, 7] } = .ok [255, 7] ∧
    ∀ x ∈ ([255, 7] : List Int), 0 ≤ x ∧ x ≤ 255 :=
  ⟨rfl,
    (read_byte_normalization
        { _mode := 0, _stream := some { pos := 0, closed := false },
          _stream_type := 0, _buffered_stream := none } 2 0
        { size := 0, value := [] } { count := 2, bytes := [-1, 7] }).1
      [255, 7] rfl⟩

/-- Claim C10, confirmed: when the backend reports end of stream to
`read_chunk` (count -1), it returns the empty string — not an integer
count — and the caller-supplied chunk is left unmutated; on a
non-end-of-stream read it sets `chunk.value` to the normalized
`buf[:read]` slice and returns the integer count. -/
theorem read_chunk_eof_semantics (self : CoreHdfsFile) (chunk : Chunk) (r : BackendRead)
    (hs : self._stream ≠ none) (ht : self._stream_type = CoreHdfsFile._INPUT) :
    (r.count = -1 →
      CoreHdfsFile.read_chunk self chunk r = .ok (chunk, ChunkReadResult.str [])) ∧
    (0 ≤ r.count →
      CoreHdfsFile.read_chunk self chunk r =
        .ok ({ chunk with
                value := (pySliceTo (bufferAfterRead chunk.size r) r.count).map toUByte },
          ChunkReadResult.count r.count)) := by
  simp only [CoreHdfsFile.read_chunk]
  rw [if_neg (by simp [hs, ht])]
  constructor
  · intro h
    rw [if_pos h]
  · intro h
    rw [if_neg (by omega)]

/-- Witness for the Claim C10 theorem: at end of stream the chunk's
prior contents survive and the empty string is returned. -/
theorem read_chunk_eof_semantics_witness :
    (({ _mode := 0, _stream := some { pos := 0, closed := false },
        _stream_type := 0, _buffered_stream := none } : CoreHdfsFile)._stream ≠ none ∧
     ({ _mode := 0, _stream := some { pos := 0, closed := false },
        _stream_type := 0, _buffered_stream := none } : CoreHdfsFile)._stream_type =
       CoreHdfsFile._INPUT ∧ (-1 : Int) = -1) ∧
    CoreHdfsFile.read_chunk
        { _mode := 0, _stream := some { pos := 0, closed := false },
          _stream_type := 0, _buffered_stream := none }
        { size := 4, value := [9, 9] } { count := -1, bytes := [] } =
      .ok ({ size := 4, value := [9, 9] }, ChunkReadResult.str []) :=
  ⟨⟨by decide, by decide, rfl⟩,
    (read_chunk_eof_semantics
      { _mode := 0, _stream := some { pos := 0, closed := false },
        _stream_type := 0, _buffered_stream := none }
      { size := 4, value := [9, 9] } { count := -1, bytes := [] }
      (by decide) (by decide)).1 rfl⟩

end Pydoop
